import Mathlib

/-!
Shallow embedding of the `nodfe/clawdbot-technical-analysis` VitePress
documentation site: the declarative site configuration
(`docs/.vitepress/config.mts`), the two prebuilt homepage SSR modules,
the theme entry module, and the two locale content trees, together with
the build-time behaviours of the (external, unmodified) static-site
generator that the specification describes: locale resolution, dead-link
checking, and sitemap stamping.
-/

namespace ClawdbotSite

/-- The canonical hostname constant from `docs/.vitepress/config.mts` line 5:
`const hostname = 'https://clawdbot-guide.com'`. -/
def hostname : String := "https://clawdbot-guide.com"

/-- A `['tag', { attr: value, ... }]` head entry from the config's `head` array:
tag name paired with its attribute list. -/
structure HeadTag where
  tag : String
  attrs : List (String × String)
deriving DecidableEq

/-- The `head` array of `docs/.vitepress/config.mts`, parameterised by the
hostname interpolated into the two template literals
`` `${hostname}/pixel-lobster.svg` `` (og:image and twitter:image). -/
def headTags (h : String) : List HeadTag :=
  [ { tag := "link", attrs := [("rel", "icon"), ("href", "/pixel-lobster.svg")] },
    { tag := "meta", attrs := [("name", "theme-color"), ("content", "#bd34fe")] },
    { tag := "meta", attrs := [("name", "author"), ("content", "Gnod")] },
    { tag := "meta", attrs := [("property", "og:type"), ("content", "website")] },
    { tag := "meta", attrs := [("property", "og:image"), ("content", h ++ "/pixel-lobster.svg")] },
    { tag := "meta", attrs := [("name", "twitter:card"), ("content", "summary_large_image")] },
    { tag := "meta", attrs := [("name", "twitter:image"), ("content", h ++ "/pixel-lobster.svg")] } ]

/-- Look up, in a head-tag list, the `content` attribute of the tag that
carries the given identifying attribute pair (e.g. `property = og:image`). -/
def tagContent (tags : List HeadTag) (key val : String) : Option String :=
  (tags.find? (fun t => t.attrs.contains (key, val))).bind
    (fun t => (t.attrs.find? (fun a => a.1 == "content")).map (fun a => a.2))

/-- The `content` of the Open Graph image meta tag generated for hostname `h`. -/
def ogImageContent (h : String) : Option String :=
  tagContent (headTags h) "property" "og:image"

/-- The `content` of the Twitter Card image meta tag generated for hostname `h`. -/
def twitterImageContent (h : String) : Option String :=
  tagContent (headTags h) "name" "twitter:image"

/-- The head tags the site is actually built with (`head:` in the config,
closed over the `hostname` constant). -/
def siteHead : List HeadTag := headTags hostname

/-- The field `sitemap: { hostname: hostname }` from `docs/.vitepress/config.mts`. -/
def sitemapHostname : String := hostname

/-- The field `cleanUrls: true` from the config. -/
def cleanUrls : Bool := true

/-- The field `lastUpdated: true` from the config. -/
def lastUpdatedOn : Bool := true

/-- A nav-bar entry `{ text, link }` from a locale's `themeConfig.nav`. -/
structure NavItem where
  text : String
  link : String
deriving DecidableEq

/-- A sidebar entry `{ text, link }` from a sidebar section's `items`. -/
structure SidebarItem where
  text : String
  link : String
deriving DecidableEq

/-- A sidebar section `{ text, items }` from a locale's `themeConfig.sidebar`. -/
structure SidebarSection where
  text : String
  items : List SidebarItem
deriving DecidableEq

/-- The ten items of `locales.root.themeConfig.sidebar[0].items`
(`docs/.vitepress/config.mts` lines 90-101). -/
def rootSidebarItems : List SidebarItem :=
  [ { text := "1. 概述与架构设计", link := "/guide/intro" },
    { text := "2. Gateway核心机制", link := "/guide/gateway" },
    { text := "3. 多通道系统实现", link := "/guide/channels" },
    { text := "4. 代理(Agent)系统", link := "/guide/agents" },
    { text := "5. 工具系统与扩展", link := "/guide/tools" },
    { text := "6. 技能与插件架构", link := "/guide/skills" },
    { text := "7. 内存与状态管理", link := "/guide/memory" },
    { text := "8. 模型集成与AI接口", link := "/guide/models" },
    { text := "9. 安全模型与权限", link := "/guide/security" },
    { text := "10. 部署与最佳实践", link := "/guide/deployment" } ]

/-- The array `locales.root.themeConfig.sidebar`: a single section holding the ten
lesson links. -/
def rootSidebar : List SidebarSection :=
  [ { text := "技术深度解析教程", items := rootSidebarItems } ]

/-- The ten items of `locales.en.themeConfig.sidebar[0].items`
(`docs/.vitepress/config.mts` lines 124-135). -/
def enSidebarItems : List SidebarItem :=
  [ { text := "1. Overview & Architecture", link := "/en/guide/intro" },
    { text := "2. Gateway Mechanism", link := "/en/guide/gateway" },
    { text := "3. Multi-Channel System", link := "/en/guide/channels" },
    { text := "4. Agent System", link := "/en/guide/agents" },
    { text := "5. Tools & Extensions", link := "/en/guide/tools" },
    { text := "6. Skills & Plugins", link := "/en/guide/skills" },
    { text := "7. Memory Management", link := "/en/guide/memory" },
    { text := "8. Model Integration", link := "/en/guide/models" },
    { text := "9. Security Model", link := "/en/guide/security" },
    { text := "10. Deployment", link := "/en/guide/deployment" } ]

/-- The array `locales.en.themeConfig.sidebar`: a single section holding the ten
lesson links. -/
def enSidebar : List SidebarSection :=
  [ { text := "Technical Deep Dive", items := enSidebarItems } ]

/-- The array `locales.root.themeConfig.nav`. -/
def rootNav : List NavItem :=
  [ { text := "首页", link := "/" },
    { text := "阅读教程", link := "/guide/intro" },
    { text := "GitHub", link := "https://github.com/nodfe/clawdbot-technical-analysis" } ]

/-- The array `locales.en.themeConfig.nav`. -/
def enNav : List NavItem :=
  [ { text := "Home", link := "/en/" },
    { text := "Read Guide", link := "/en/guide/intro" },
    { text := "GitHub", link := "https://github.com/nodfe/clawdbot-technical-analysis" } ]

/-- A locale descriptor from the config's `locales` map: language metadata
plus the per-locale `themeConfig` overrides the claims are about. -/
structure LocaleCfg where
  label : String
  lang : String
  link : Option String
  title : String
  description : String
  nav : List NavItem
  sidebar : List SidebarSection
deriving DecidableEq

/-- The descriptor `locales.root` from `docs/.vitepress/config.mts`. -/
def rootLocale : LocaleCfg :=
  { label := "简体中文", lang := "zh-CN", link := none,
    title := "Clawdbot 技术解析",
    description := "Clawdbot 深度技术指南与架构分析",
    nav := rootNav, sidebar := rootSidebar }

/-- The descriptor `locales.en` from `docs/.vitepress/config.mts`. -/
def enLocale : LocaleCfg :=
  { label := "English", lang := "en", link := some "/en/",
    title := "Clawdbot Deep Dive",
    description := "In-depth Technical Guide for Clawdbot",
    nav := enNav, sidebar := enSidebar }

/-- The `locales` map of the config, in declaration order: key paired with
its locale descriptor. -/
def locales : List (String × LocaleCfg) :=
  [("root", rootLocale), ("en", enLocale)]

/-- The locale descriptor stored under a key of the `locales` map
(the `root` descriptor when the key is absent, matching the generator's
default-locale fallback). -/
def localeOf (key : String) : LocaleCfg :=
  match locales.find? (fun p => p.1 == key) with
  | some p => p.2
  | none => rootLocale

/-- Boolean string-prefix test on the underlying character lists: `p` is a
leading piece of `s`. Agrees with `String.startsWith` but reduces
structurally, so closed instances evaluate in the kernel. -/
def strHasLead (p s : String) : Bool := p.data.isPrefixOf s.data

/-- Boolean string-suffix test on the underlying character lists: `p` is a
trailing piece of `s`. Agrees with `String.endsWith` but reduces
structurally. -/
def strHasTail (p s : String) : Bool := p.data.isSuffixOf s.data

/-- Drops the first `n` characters of `s`; agrees with `String.drop` on the
character level but reduces structurally. -/
def strDrop (s : String) (n : Nat) : String := String.mk (s.data.drop n)

/-- Drops the last `n` characters of `s`; agrees with `String.dropRight` on
the character level but reduces structurally. -/
def strDropTail (s : String) (n : Nat) : String :=
  String.mk (s.data.take (s.data.length - n))

/-- Modelled from the spec: the generator's locale resolver, absent from the
repository (it lives in the unmodified VitePress tool). "The route's leading
path segment is matched against each locale's non-default prefix (e.g.
`/en/...`); no match implies the default (root) locale." Walks the locale
keys in map order and returns the first non-default key whose `/key/` path
segment leads the route. -/
def resolveLocaleKey (keys : List String) (route : String) : String :=
  match keys with
  | [] => "root"
  | k :: rest =>
    if k != "root" && strHasLead ("/" ++ k ++ "/") route then k
    else resolveLocaleKey rest route

/-- The keys of the `locales` map, in declaration order. -/
def localeKeys : List String := locales.map (fun p => p.1)

/-- The root-locale (Chinese) content tree: relative paths of the Markdown
files under `docs/` outside `en/` and `.vitepress/`, in sidebar order.
Observed in the sources: `index.md`, `guide/gateway.md`, `guide/channels.md`,
`guide/agents.md`, `guide/tools.md`, `guide/skills.md`, `guide/memory.md`,
`guide/security.md`. Modelled from the spec: `guide/intro.md`,
`guide/models.md` and `guide/deployment.md` are absent from the provided
sources; the spec states each locale tree holds the ten lesson documents of
its sidebar plus a homepage. -/
def rootTreeFiles : List String :=
  [ "index.md",
    "guide/intro.md", "guide/gateway.md", "guide/channels.md",
    "guide/agents.md", "guide/tools.md", "guide/skills.md",
    "guide/memory.md", "guide/models.md", "guide/security.md",
    "guide/deployment.md" ]

/-- The English content tree: relative paths of the Markdown files under
`docs/en/`, in sidebar order. Observed in the sources: all but
`en/guide/agents.md`. Modelled from the spec: `en/guide/agents.md` is absent
from the provided sources; the spec states each locale tree holds the ten
lesson documents of its sidebar plus a homepage. -/
def enTreeFiles : List String :=
  [ "en/index.md",
    "en/guide/intro.md", "en/guide/gateway.md", "en/guide/channels.md",
    "en/guide/agents.md", "en/guide/tools.md", "en/guide/skills.md",
    "en/guide/memory.md", "en/guide/models.md", "en/guide/security.md",
    "en/guide/deployment.md" ]

/-- All Markdown content files of the docs tree. -/
def contentFiles : List String := rootTreeFiles ++ enTreeFiles

/-- Modelled from the spec: the generator's route-to-source mapping, absent
from the repository (it lives in the unmodified VitePress tool). Under the
file-system layout contract with `cleanUrls: true`, an internal route `/a/b`
is served from source file `a/b.md`, and a directory route `/a/` from
`a/index.md`. -/
def routeToFile (link : String) : String :=
  if strHasTail "/" link then strDrop link 1 ++ "index.md"
  else strDrop link 1 ++ ".md"

/-- Every link occurring in either locale's `themeConfig.nav`. -/
def navLinks : List String := (rootNav ++ enNav).map (fun i => i.link)

/-- Every link occurring in either locale's `themeConfig.sidebar`. -/
def sidebarLinks : List String :=
  (rootSidebarItems ++ enSidebarItems).map (fun i => i.link)

/-- The internal (site-relative) links of both locales' nav and sidebar:
those starting with `/` (the GitHub entries are external URLs). -/
def internalLinks : List String :=
  (navLinks ++ sidebarLinks).filter (fun l => strHasLead "/" l)

/-- The internal links whose route resolves to no file of `files`. -/
def deadLinks (links files : List String) : List String :=
  links.filter (fun l => !(files.contains (routeToFile l)))

/-- Modelled from the spec: the generator's build-time dead-link check,
absent from the repository (it lives in the unmodified VitePress tool).
"Broken internal links in sidebar/nav (file not found) abort the build":
the build succeeds exactly when every internal link resolves, and otherwise
aborts fatally with an error naming a dead link. -/
def buildCheck (links files : List String) : Except String Unit :=
  match deadLinks links files with
  | [] => Except.ok ()
  | l :: _ => Except.error ("(!) Found dead link: " ++ l)

/-- The route served for a content file: inverse of `routeToFile` under
`cleanUrls` (`a/b.md` ↦ `a/b`, `a/index.md` ↦ `a/`). -/
def fileToRoute (f : String) : String :=
  if strHasTail "index.md" f then strDropTail f 8 else strDropTail f 3

/-- Modelled from the spec: the sitemap generator, absent from the
repository (it lives in the unmodified VitePress tool). It stamps the
configured `sitemap.hostname` onto every page route: each entry is the
hostname followed by `/` and the page's clean route. -/
def sitemapEntries (h : String) (files : List String) : List String :=
  files.map (fun f => h ++ ("/" ++ fileToRoute f))

/-- The absolute URLs interpolated into the head tags generated for
hostname `h`: the og:image and twitter:image contents. -/
def headAbsoluteUrls (h : String) : List String :=
  ((ogImageContent h).toList) ++ ((twitterImageContent h).toList)

/-- The function `ssrRenderAttrs` from `vue/server-renderer` (external to this
repository), modelled on attribute lists: serialises the forwarded attrs
record into the element's attribute string, one ` key="value"` per entry. -/
def ssrRenderAttrs (attrs : List (String × String)) : String :=
  attrs.foldl (fun acc a => acc ++ " " ++ a.1 ++ "=\"" ++ a.2 ++ "\"") ""

/-- The function `_sfc_ssrRender` of the prebuilt `en/index.md` SSR module: receives
`(_ctx, _push, _parent, _attrs, $props, $setup, $data, $options)` and pushes
the single chunk `` `<div${ssrRenderAttrs(_attrs)}></div>` ``; the `_push`
sink is modelled by returning the list of pushed chunks. -/
def sfcSsrRenderEn {α β γ δ ε ζ : Type} (_ctx : α) (_parent : β)
    (attrs : List (String × String)) (_props : γ) (_setup : δ) (_data : ε)
    (_options : ζ) : List String :=
  ["<div" ++ ssrRenderAttrs attrs ++ "></div>"]

/-- The function `_sfc_ssrRender` of the prebuilt root `index.md` SSR module: identical
body to the `en/index.md` one. -/
def sfcSsrRender {α β γ δ ε ζ : Type} (_ctx : α) (_parent : β)
    (attrs : List (String × String)) (_props : γ) (_setup : δ) (_data : ε)
    (_options : ζ) : List String :=
  ["<div" ++ ssrRenderAttrs attrs ++ "></div>"]

/-- The constant `_sfc_main.name` of the `en/index.md` SSR module. -/
def sfcMainNameEn : String := "en/index.md"

/-- The constant `_sfc_main.name` of the root `index.md` SSR module. -/
def sfcMainName : String := "index.md"

/-- The theme entry module's default export: `extends` the default theme,
substitutes the `Layout` component, and carries the `enhanceApp` hook.
The component references are embedded by name. -/
structure VPTheme (α : Type) where
  extendsTheme : String
  layoutName : String
  enhanceApp : α → α

/-- The stylesheets the theme module imports at initialisation
(`import './style.css'`). -/
def themeStyles : List String := ["./style.css"]

/-- The theme module's default export: `{ extends: DefaultTheme, Layout:
Layout, enhanceApp({ app }) { /- register global components if needed -/ } }`.
The `enhanceApp` body is empty, so the hook returns the app unchanged. -/
def theme (α : Type) : VPTheme α :=
  { extendsTheme := "DefaultTheme", layoutName := "Layout",
    enhanceApp := fun app => app }

/-- Splits a character list at the first `://`: returns the scheme part and
the remainder, or `none` when the list holds no `://`. -/
def splitScheme : List Char → Option (List Char × List Char)
  | [] => none
  | c :: rest =>
    if c = ':' then
      match rest with
      | '/' :: '/' :: tail => some ([], tail)
      | _ => none
    else
      match splitScheme rest with
      | some (pre, tail) => some (c :: pre, tail)
      | none => none

/-- The spec's format check on the hostname constant: a syntactically valid
absolute URL — a nonempty all-alphabetic scheme, `://`, a nonempty
remainder — with no trailing slash. -/
def validHostname (s : String) : Bool :=
  match splitScheme s.data with
  | some (scheme, rest) =>
    !scheme.isEmpty && scheme.all Char.isAlpha && !rest.isEmpty
      && s.data.getLast? != some '/'
  | none => false

/-- The source files the root sidebar's ten lesson links resolve to. -/
def rootLessonFiles : List String :=
  rootSidebarItems.map (fun i => routeToFile i.link)

/-- The source files the English sidebar's ten lesson links resolve to. -/
def enLessonFiles : List String :=
  enSidebarItems.map (fun i => routeToFile i.link)

/- ------------------------------------------------------------------ -/
/- Helper lemmas                                                      -/
/- ------------------------------------------------------------------ -/

theorem isPrefixOf_append_self (l t : List Char) :
    l.isPrefixOf (l ++ t) = true := by
  induction l with
  | nil => simp
  | cons a as ih => simp [List.isPrefixOf, ih]

theorem strHasLead_append (p t : String) : strHasLead p (p ++ t) = true := by
  unfold strHasLead
  rw [String.data_append]
  exact isPrefixOf_append_self _ _

theorem resolveLocaleKey_locales_eq (route : String) :
    resolveLocaleKey localeKeys route
      = if strHasLead "/en/" route then "en" else "root" := by
  cases hb : strHasLead "/en/" route <;>
    simp [resolveLocaleKey, localeKeys, locales, hb]

theorem buildCheck_ok_iff (links files : List String) :
    buildCheck links files = Except.ok ()
      ↔ links.all (fun l => files.contains (routeToFile l)) = true := by
  unfold buildCheck
  rcases h : deadLinks links files with _ | ⟨d, ds⟩
  · simp only [h]
    constructor
    · intro _
      have hnil := h
      unfold deadLinks at hnil
      rw [List.filter_eq_nil_iff] at hnil
      rw [List.all_eq_true]
      intro l hl
      have hb := hnil l hl
      simpa using hb
    · intro _
      trivial
  · simp only [h]
    constructor
    · intro hcontra
      simp at hcontra
    · intro hall
      exfalso
      have hd : d ∈ deadLinks links files := by
        rw [h]
        exact List.mem_cons_self _ _
      unfold deadLinks at hd
      rw [List.mem_filter] at hd
      rw [List.all_eq_true] at hall
      have hres := hall d hd.1
      have hneg := hd.2
      rw [hres] at hneg
      simp at hneg

/- ------------------------------------------------------------------ -/
/- Claim theorems                                                     -/
/- ------------------------------------------------------------------ -/

/-- C1: every sidebar and nav entry of both locales' `themeConfig` — in
particular each locale's ten lesson links — links a route that resolves to
an existing Markdown content file of the docs tree, so the dead-link check
passes on the actual site; and for any file set, the build succeeds exactly
when every internal sidebar/nav link resolves, aborting fatally otherwise. -/
theorem sidebar_nav_link_integrity :
    (sidebarLinks.all (fun l => contentFiles.contains (routeToFile l)) = true)
    ∧ (internalLinks.all (fun l => contentFiles.contains (routeToFile l)) = true)
    ∧ buildCheck internalLinks contentFiles = Except.ok ()
    ∧ (∀ files, buildCheck internalLinks files = Except.ok ()
        ↔ internalLinks.all (fun l => files.contains (routeToFile l)) = true) := by
  refine ⟨by decide, by decide, rfl, ?_⟩
  intro files
  exact buildCheck_ok_iff internalLinks files

/-- C2: locale parity of the two content trees — every root-locale content
file has a file at the same relative path under `en/`, and every `en/` file
sits under the `en/` route with its relative path present in the root tree. -/
theorem locale_tree_parity :
    (rootTreeFiles.all (fun f => enTreeFiles.contains ("en/" ++ f)) = true)
    ∧ (enTreeFiles.all
        (fun g => strHasLead "en/" g && rootTreeFiles.contains (strDrop g 3)) = true)
    ∧ enTreeFiles = rootTreeFiles.map (fun f => "en/" ++ f) := by
  refine ⟨by decide, by decide, by decide⟩

/-- C3: SEO head generation is plain concatenation of the hostname with the
fixed path — for hostname `https://example.org` both the Open Graph and the
Twitter image tag contents equal exactly
`https://example.org/pixel-lobster.svg`, and for every hostname string the
generated contents are `hostname ++ "/pixel-lobster.svg"`, with no
validation or rewriting. -/
theorem seo_head_plain_concat :
    ogImageContent "https://example.org" = some "https://example.org/pixel-lobster.svg"
    ∧ twitterImageContent "https://example.org"
        = some "https://example.org/pixel-lobster.svg"
    ∧ (∀ h, ogImageContent h = some (h ++ "/pixel-lobster.svg")
        ∧ twitterImageContent h = some (h ++ "/pixel-lobster.svg")) :=
  ⟨rfl, rfl, fun _ => ⟨rfl, rfl⟩⟩

/-- C4: locale resolution over the configured locale map is decided by the
leading path segment — a route selects the `en` locale exactly when it
begins with `/en/`, any other route selects the default root locale; in
particular `/en/guide/tools` selects the English sidebar (ten entries) and
`/guide/tools` the Chinese sidebar. -/
theorem locale_resolution_by_leading_segment :
    (∀ route, resolveLocaleKey localeKeys route = "en"
        ↔ strHasLead "/en/" route = true)
    ∧ (∀ route, strHasLead "/en/" route = false
        → resolveLocaleKey localeKeys route = "root")
    ∧ (localeOf (resolveLocaleKey localeKeys "/en/guide/tools")).sidebar = enSidebar
    ∧ enSidebarItems.length = 10
    ∧ (localeOf (resolveLocaleKey localeKeys "/guide/tools")).sidebar = rootSidebar
    ∧ rootSidebarItems.length = 10 := by
  refine ⟨?_, ?_, by decide, by decide, by decide, by decide⟩
  · intro route
    rw [resolveLocaleKey_locales_eq]
    cases hb : strHasLead "/en/" route <;> simp [hb]
  · intro route hb
    rw [resolveLocaleKey_locales_eq, hb]
    simp

/-- C4 witness: the resolution theorem applied at the concrete route
`/guide/tools`, whose leading segment matches no non-default locale, so the
root locale is selected. -/
theorem locale_resolution_witness :
    strHasLead "/en/" "/guide/tools" = false
    ∧ resolveLocaleKey localeKeys "/guide/tools" = "root" :=
  ⟨by decide,
    locale_resolution_by_leading_segment.2.1 "/guide/tools" (by decide)⟩

/-- C5: each locale content tree holds exactly the ten lesson documents
enumerated by its sidebar plus a homepage — eleven files in all per tree. -/
theorem trees_hold_ten_lessons_plus_homepage :
    rootTreeFiles = "index.md" :: rootLessonFiles
    ∧ enTreeFiles = "en/index.md" :: enLessonFiles
    ∧ rootLessonFiles.length = 10
    ∧ enLessonFiles.length = 10
    ∧ rootTreeFiles.length = 11
    ∧ enTreeFiles.length = 11 := by
  refine ⟨by decide, by decide, by decide, by decide, by decide, by decide⟩

/-- C6 counterexample: the prebuilt homepage SSR render function is not
independent of its attrs argument — two invocations differing only in the
forwarded attrs emit different markup (`<div class="x"></div>` versus
`<div></div>`). -/
theorem ssr_render_attrs_counterexample :
    sfcSsrRenderEn () () [("class", "x")] () () () ()
      ≠ sfcSsrRenderEn () () [] () () () () := by
  decide

/-- C6 (amended): each prebuilt homepage SSR render function is a pure total
function of its attrs argument alone — for all values of the other seven
parameters it emits a single otherwise-empty container element carrying the
serialised attrs, the two modules' render functions coincide, and with no
attrs the markup is exactly `<div></div>`; being total, it has no error
path. -/
theorem ssr_render_pure_in_attrs :
    (∀ (α β γ δ ε ζ : Type) (c : α) (p : β) (attrs : List (String × String))
        (pr : γ) (s : δ) (d : ε) (o : ζ),
      sfcSsrRenderEn c p attrs pr s d o
          = ["<div" ++ ssrRenderAttrs attrs ++ "></div>"]
      ∧ sfcSsrRender c p attrs pr s d o = sfcSsrRenderEn c p attrs pr s d o)
    ∧ sfcSsrRenderEn () () [] () () () () = ["<div></div>"]
    ∧ sfcSsrRender () () [] () () () () = ["<div></div>"] :=
  ⟨fun _ _ _ _ _ _ _ _ _ _ _ _ _ => ⟨rfl, rfl⟩, rfl, rfl⟩

/-- C7: the configured hostname constant is a syntactically valid absolute
URL with a scheme and no trailing slash; `https://clawdbot-guide.com`
passes the format check while `https://clawdbot-guide.com/` and
`your-actual-domain.com` fail it. -/
theorem hostname_format_valid :
    validHostname hostname = true
    ∧ validHostname "https://clawdbot-guide.com" = true
    ∧ validHostname "https://clawdbot-guide.com/" = false
    ∧ validHostname "your-actual-domain.com" = false := by
  refine ⟨by decide, by decide, by decide, by decide⟩

/-- C8: the theme module's `enhanceApp` hook is a no-op returning the
application object unchanged, and the theme override only substitutes the
`Layout` component over the default theme and imports one stylesheet. -/
theorem theme_enhance_app_noop :
    (∀ (α : Type) (app : α), (theme α).enhanceApp app = app)
    ∧ (∀ (α : Type), (theme α).layoutName = "Layout"
        ∧ (theme α).extendsTheme = "DefaultTheme")
    ∧ themeStyles = ["./style.css"] :=
  ⟨fun _ _ => rfl, fun _ => ⟨rfl, rfl⟩, rfl⟩

/-- C9: the hostname stamped into the sitemap is the exact constant
interpolated into the social-meta URLs, every sitemap entry generated for
the content tree begins with that configured hostname — and does so for any
file set — and both absolute head-tag URLs begin with it as well. -/
theorem sitemap_hostname_round_trip :
    sitemapHostname = hostname
    ∧ ((sitemapEntries sitemapHostname contentFiles).all
        (fun e => strHasLead hostname e) = true)
    ∧ ((headAbsoluteUrls hostname).all (fun u => strHasLead hostname u) = true)
    ∧ (∀ files, (sitemapEntries sitemapHostname files).all
        (fun e => strHasLead hostname e) = true) := by
  refine ⟨rfl, by decide, by decide, ?_⟩
  intro files
  rw [List.all_eq_true]
  intro e he
  rw [sitemapEntries, List.mem_map] at he
  obtain ⟨f, _, rfl⟩ := he
  exact strHasLead_append hostname ("/" ++ fileToRoute f)

/-- C10: the two locales' sidebars are structurally parallel — one section
each, ten entries each, and entrywise the English link is `/en` prepended
to the Chinese link. -/
theorem sidebars_structurally_parallel :
    rootSidebar.length = 1
    ∧ enSidebar.length = 1
    ∧ rootSidebar.map (fun s => s.items) = [rootSidebarItems]
    ∧ enSidebar.map (fun s => s.items) = [enSidebarItems]
    ∧ rootSidebarItems.length = 10
    ∧ enSidebarItems.length = 10
    ∧ enSidebarItems.map (fun i => i.link)
        = rootSidebarItems.map (fun i => "/en" ++ i.link) := by
  refine ⟨by decide, by decide, by decide, by decide, by decide, by decide, by decide⟩

end ClawdbotSite
